import Mathlib

/-!
Verification development for the Invoiz backend subscription/payment protocol.

The definitions below are a shallow embedding of the payment-verification and
subscription-activation code of the repository:

* `src/routes/subscription.js` (create-order, verify-payment, webhook),
* `src/routes/business.js` (the second subscription router: create-order,
  verify-payment, webhook, cancel),
* `src/utils/razorpayService.js` (plan catalog),
* the `User` model (`hasActiveSubscription`, `getSubscriptionInfo`) and the
  `SubscriptionTransaction` model.

JavaScript `Date` values are modelled as milliseconds since the Unix epoch
(`Int`), with the server clock taken to be UTC.  MongoDB documents become plain
Lean structures; a Mongoose session transaction becomes "all of the handler's
writes are applied at commit, none on abort", which a pure function expresses by
returning either the updated database or the original one.  External services
(the Razorpay gateway, HMAC-SHA256) are threaded as explicit function
parameters.  Fields that carry no protocol content (timestamps `created_at` /
`updated_at`, `currency`, receipts, log strings, email bodies) are omitted;
emails are counted.
-/

namespace Invoiz

/-! ## ECMAScript Date semantics (UTC) -/

/-- Milliseconds per day. -/
def msPerDay : Int := 86400000

/-- Days since 1970-01-01 of the civil date `(y, m, d)` with `m` in `1..12`
(proleptic Gregorian calendar, as used by ECMAScript `Date`). -/
def daysFromCivil (y m d : Int) : Int :=
  let y2 : Int := if m ≤ 2 then y - 1 else y
  let era : Int := y2.ediv 400
  let yoe : Int := y2 - era * 400
  let mp : Int := (m + 9).emod 12
  let doy : Int := (153 * mp + 2).ediv 5 + d - 1
  let doe : Int := yoe * 365 + yoe.ediv 4 - yoe.ediv 100 + doy
  era * 146097 + doe - 719468

/-- Civil date `(y, m, d)` (month `1..12`) of a count of days since 1970-01-01. -/
def civilFromDays (z0 : Int) : Int × Int × Int :=
  let z : Int := z0 + 719468
  let era : Int := z.ediv 146097
  let doe : Int := z - era * 146097
  let yoe : Int := (doe - doe.ediv 1460 + doe.ediv 36524 - doe.ediv 146096).ediv 365
  let y : Int := yoe + era * 400
  let doy : Int := doe - (365 * yoe + yoe.ediv 4 - yoe.ediv 100)
  let mp : Int := (5 * doy + 2).ediv 153
  let d : Int := doy - (153 * mp + 2).ediv 5 + 1
  let m : Int := mp + (if mp < 10 then 3 else -9)
  (if m ≤ 2 then y + 1 else y, m, d)

/-- Whole days since the epoch of an instant (floor division, as in JS). -/
def epochDays (t : Int) : Int := t.ediv msPerDay

/-- Milliseconds into the day of an instant. -/
def msInDay (t : Int) : Int := t.emod msPerDay

/-- JS `getUTCFullYear`. -/
def getFullYear (t : Int) : Int := (civilFromDays (epochDays t)).1

/-- JS `getUTCMonth` (0-based: January is 0). -/
def getMonth (t : Int) : Int := (civilFromDays (epochDays t)).2.1 - 1

/-- JS `getUTCDate` (day of month, 1-based). -/
def getDate (t : Int) : Int := (civilFromDays (epochDays t)).2.2

/-- ECMAScript `MakeDay(y, m, d)`: `m` is 0-based and may be out of range, and
a day-of-month past the end of the month rolls over into the following month. -/
def makeDay (y m d : Int) : Int :=
  let ym : Int := y * 12 + m
  daysFromCivil (ym.ediv 12) (ym.emod 12 + 1) 1 + (d - 1)

/-- JS `setMonth(m)` (UTC model): keep year, day-of-month and time of day,
replace the 0-based month, normalizing overflow. -/
def setMonth (t m : Int) : Int :=
  makeDay (getFullYear t) m (getDate t) * msPerDay + msInDay t

/-- JS `setFullYear(y)` (UTC model). -/
def setFullYear (t y : Int) : Int :=
  makeDay y (getMonth t) (getDate t) * msPerDay + msInDay t

/-- JS `setDate(getDate() + n)`: shift by whole days. -/
def addDays (t n : Int) : Int := t + n * msPerDay

/-- JS `setHours(23, 59, 59, 999)` (UTC model): last millisecond of the day. -/
def setHoursEndOfDay (t : Int) : Int := epochDays t * msPerDay + 86399999

/-! ## Data model -/

/-- `SubscriptionTransaction.status` (models/Subscription.js):
`enum: ['pending', 'completed', 'failed', 'refunded']`. -/
inductive TxStatus
  | pending
  | completed
  | failed
  | refunded
deriving DecidableEq, Repr

/-- One `SubscriptionTransaction` document (the transaction ledger entry). -/
structure LedgerEntry where
  transaction_id : String
  user_id : Nat
  plan_id : String
  razorpay_order_id : String
  razorpay_payment_id : Option String
  razorpay_signature : Option String
  amount : Int
  status : TxStatus
deriving DecidableEq, Repr

/-- `User.subscription.status` enum: `['active', 'expired', 'cancelled']`. -/
inductive SubStatus
  | active
  | expired
  | cancelled
deriving DecidableEq, Repr

/-- The `subscription` subdocument embedded in a `User` document.  Every field
is optional in the schema; a fresh user has all fields unset. -/
structure Subscription where
  plan_type : Option String := none
  start_date : Option Int := none
  end_date : Option Int := none
  status : Option SubStatus := none
  razorpay_subscription_id : Option String := none
  amount_paid : Option ℚ := none
deriving DecidableEq, Repr

/-- `userSchema.methods.hasActiveSubscription` (User model):
returns `false` when `subscription.end_date` is unset (JS falsiness of
`undefined`), otherwise `status === 'active' && end_date > new Date()`. -/
def hasActiveSubscription (s : Subscription) (now : Int) : Bool :=
  match s.end_date with
  | none => false
  | some e => decide (s.status = some SubStatus.active) && decide (now < e)

/-- The value computed by `userSchema.methods.getSubscriptionInfo`. -/
structure SubscriptionInfo where
  plan_type : Option String
  status : Option SubStatus
  start_date : Option Int
  end_date : Option Int
  days_remaining : Int
deriving DecidableEq, Repr

/-- `userSchema.methods.getSubscriptionInfo`: the days remaining are counted
from the start of the current day, floored, and clamped at 0. -/
def getSubscriptionInfo (s : Subscription) (now : Int) : SubscriptionInfo :=
  let dr : Int :=
    match s.end_date with
    | none => 0
    | some e => max 0 ((e - epochDays now * msPerDay).ediv msPerDay)
  ⟨s.plan_type, s.status, s.start_date, s.end_date, dr⟩

/-- A subscription plan as defined in `razorpayService.js`.  The catalog
objects define `name`, `price` (paise), `duration_months` and `features`;
they define no `validity_type` / `validity_period` keys, so reading those
properties in JS yields `undefined`, modelled by the `none` defaults. -/
structure Plan where
  name : String
  price : Int
  duration_months : Int
  features : List String
  validity_type : Option String := none
  validity_period : Option Int := none
deriving DecidableEq, Repr

/-- `SUBSCRIPTION_PLANS` from `src/utils/razorpayService.js`. -/
def SUBSCRIPTION_PLANS : String → Option Plan := fun planId =>
  if planId = "basic" then
    some { name := "Basic Plan", price := 100, duration_months := 1,
           features := ["Up to 50 invoices per month", "Basic invoice templates",
                        "Customer management", "Payment tracking", "Email support"] }
  else if planId = "pro" then
    some { name := "Pro Plan", price := 54900, duration_months := 6,
           features := ["Up to 500 invoices per month", "Premium invoice templates",
                        "Advanced customer management", "Payment tracking & reminders",
                        "Inventory management", "Reports & analytics",
                        "Priority email support"] }
  else if planId = "premium" then
    some { name := "Premium Plan", price := 99900, duration_months := 12,
           features := ["Unlimited invoices", "All premium templates",
                        "Advanced customer & vendor management",
                        "Automated payment reminders", "Advanced inventory management",
                        "Detailed reports & analytics", "GST compliance features",
                        "Phone & email support"] }
  else if planId = "enterprise" then
    some { name := "Enterprise Plan", price := 249900, duration_months := 36,
           features := ["Everything in Premium", "Multi-location support",
                        "Custom invoice templates", "API access",
                        "Advanced integrations", "Dedicated account manager",
                        "24/7 priority support", "Custom reporting"] }
  else none

/-! ## JS string helpers -/

/-- Coerce an optional request field to the string JS would see (`undefined`
is modelled as `none`; using it where a string is expected only happens after
a truthiness test in the code paths modelled here). -/
def jsStr (o : Option String) : String := o.getD ""

/-- JS truthiness of a string-valued request field: `undefined` and the empty
string are falsy. -/
def jsTruthy (o : Option String) : Bool := !(jsStr o == "")

/-- JS `x || d` for the numeric `validity_period` field: `undefined` and `0`
fall back to the default. -/
def jsOrInt (o : Option Int) (d : Int) : Int :=
  match o with
  | some v => if v = 0 then d else v
  | none => d

/-! ## End-date computations -/

/-- `calculateEndDate` from `src/routes/subscription.js` (lines 21-44).
`none` models the `throw` on an unknown plan id.  The switch is over
`plan.validity_type`, which no catalog plan defines, so in the deployed code
every plan takes the `default` branch: start date plus 30 days, with no
end-of-day normalization. -/
def subCalculateEndDate (planId : String) (startDate : Int) : Option Int :=
  match SUBSCRIPTION_PLANS planId with
  | none => none
  | some plan =>
    some
      (match plan.validity_type with
       | some "monthly" => setMonth startDate (getMonth startDate + jsOrInt plan.validity_period 1)
       | some "yearly" => setFullYear startDate (getFullYear startDate + jsOrInt plan.validity_period 1)
       | some "days" => addDays startDate (jsOrInt plan.validity_period 30)
       | _ => addDays startDate 30)

/-- `calculateEndDate` from `src/routes/business.js` (lines 245-253):
advance `duration_months` calendar months, then `setHours(23,59,59,999)`. -/
def bizCalculateEndDate (planType : String) (startDate : Int) : Option Int :=
  match SUBSCRIPTION_PLANS planType with
  | none => none
  | some plan =>
    some (setHoursEndOfDay (setMonth startDate (getMonth startDate + plan.duration_months)))

/-! ## Gateway and database -/

/-- A payment object as reported by the Razorpay API. -/
structure Payment where
  id : String
  order_id : String
  status : String
deriving DecidableEq, Repr

/-- The gateway as seen by one request: `orderPayments` models
`razorpay.orders.fetchPayments(orderId)` (`none` = the API call throws),
`fetchPayment` models `razorpay.payments.fetch(paymentId)` (`none` = throws),
`createOrder` models `razorpay.orders.create(...)` for this request
(`none` = throws, `some id` = the created order's id). -/
structure Gateway where
  orderPayments : String → Option (List Payment)
  fetchPayment : String → Option Payment
  createOrder : Option String

/-- The persistent state the protocol touches: the transaction ledger
collection and, per user id, the user's `subscription` subdocument.  A user id
absent from `users` models a `User` document that does not exist. -/
structure DB where
  ledger : List LedgerEntry
  users : List (Nat × Subscription)
deriving DecidableEq, Repr

/-- `User.findById`: the subscription slot of a user, if the document exists. -/
def lookupUser (us : List (Nat × Subscription)) (uid : Nat) : Option Subscription :=
  match us.find? (fun p => p.1 == uid) with
  | some p => some p.2
  | none => none

/-- `User.findByIdAndUpdate(uid, {$set: {subscription: s}})`: overwrite the
subscription slot of the first (unique) matching user; a missing user id is a
no-op (the driver returns `null`). -/
def setUserSub : List (Nat × Subscription) → Nat → Subscription → List (Nat × Subscription)
  | [], _, _ => []
  | p :: ps, uid, s => if p.1 = uid then (uid, s) :: ps else p :: setUserSub ps uid s

/-- The query filter `{razorpay_order_id: o, user_id: uid}`. -/
def ledgerKey (o : String) (uid : Nat) : LedgerEntry → Bool :=
  fun e => e.razorpay_order_id == o && e.user_id == uid

/-- The query filter `{razorpay_order_id: o}`. -/
def orderKey (o : String) : LedgerEntry → Bool :=
  fun e => e.razorpay_order_id == o

/-- The webhook's `findOne({razorpay_order_id: orderId})` filter.  Mongoose
strips `undefined` values from query conditions, so when the webhook payload
carries no `order_id` the filter degenerates to `{}`, matching every entry. -/
def webhookKey : Option String → LedgerEntry → Bool
  | some o => orderKey o
  | none => fun _ => true

/-- `SubscriptionTransaction.findOne(filter)`: first match in natural
(insertion) order. -/
def findTxn (l : List LedgerEntry) (p : LedgerEntry → Bool) : Option LedgerEntry :=
  l.find? p

/-- Persist an update of the single document matched by `p` (the document a
preceding `findOne(p)` loaded, saved back with `.save()`, or the target of
`updateOne(p, ...)`): replace the first match. -/
def updateFirst : List LedgerEntry → (LedgerEntry → Bool) → (LedgerEntry → LedgerEntry) → List LedgerEntry
  | [], _, _ => []
  | e :: es, p, f => if p e then f e :: es else e :: updateFirst es p f

/-- The field updates shared by all activation paths: record the resolved
payment id and signature string and flip the status to `completed`. -/
def completeEntry (fpid sig : String) (e : LedgerEntry) : LedgerEntry :=
  { e with razorpay_payment_id := some fpid, razorpay_signature := some sig,
           status := TxStatus.completed }

/-- `{$set: {status: 'failed'}}`. -/
def failEntry (e : LedgerEntry) : LedgerEntry := { e with status := TxStatus.failed }

/-- The `subscription` subdocument written on activation (identical shape in
subscription.js verify-payment, subscription.js webhook and business.js
verify-payment): `amount_paid` is `transaction.amount / 100` in rupees. -/
def mkSubscription (planId : String) (now endD : Int) (payId : String) (amount : Int) :
    Subscription :=
  { plan_type := some planId, start_date := some now, end_date := some endD,
    status := some SubStatus.active, razorpay_subscription_id := some payId,
    amount_paid := some ((amount : ℚ) / 100) }

/-- The result of one handler invocation: the database after the request, the
HTTP response, and how many confirmation emails were dispatched. -/
structure Outcome (ρ : Type) where
  db : DB
  resp : ρ
  emails : Nat
deriving DecidableEq, Repr

/-! ## Signature verification -/

/-- `verifyPaymentSignature` (subscription.js lines 65-78 and
razorpayService.js): HMAC-SHA256 of `orderId + '|' + paymentId` under the key
secret, compared to the supplied signature.  The HMAC function itself is an
external primitive and is passed in as `hmac`. -/
def verifyPaymentSignature (hmac : String → String → String)
    (secret orderId paymentId sig : String) : Bool :=
  hmac secret (orderId ++ "|" ++ paymentId) == sig

/-- Method 1 of subscription.js verify-payment (lines 258-266): attempted only
when both `razorpay_payment_id` and `razorpay_signature` are truthy. -/
def subSigMethod (hmac : String → String → String) (secret orderId : String)
    (payment_id sig : Option String) : Bool :=
  jsTruthy payment_id && jsTruthy sig
    && verifyPaymentSignature hmac secret orderId (jsStr payment_id) (jsStr sig)

/-- The two-method verification of subscription.js verify-payment (lines
253-285).  On success it returns the verification method and the resolved
payment id; method 2 lists the order's payments and accepts the first with
status `captured`. -/
def subVerifyMethods (hmac : String → String → String) (secret : String) (gw : Gateway)
    (orderId : String) (payment_id sig : Option String) : Option (String × String) :=
  if subSigMethod hmac secret orderId payment_id sig then
    some ("signature", jsStr payment_id)
  else
    match gw.orderPayments orderId with
    | none => none
    | some ps =>
      match ps.find? (fun p => p.status == "captured") with
      | some p => some ("api_fetch", p.id)
      | none => none

/-- Method 1 of business.js verify-payment (lines 423-435): attempted only when
`razorpay_signature` is truthy. -/
def bizSigMethod (hmac : String → String → String) (secret orderId paymentId : String)
    (sig : Option String) : Bool :=
  jsTruthy sig && verifyPaymentSignature hmac secret orderId paymentId (jsStr sig)

/-- The two-method verification of business.js verify-payment (lines 420-448):
the fallback fetches the payment by id and accepts only a matching `order_id`
together with status `captured`. -/
def bizVerifyMethods (hmac : String → String → String) (secret : String) (gw : Gateway)
    (orderId paymentId : String) (sig : Option String) : Bool :=
  if bizSigMethod hmac secret orderId paymentId sig then true
  else
    match gw.fetchPayment paymentId with
    | none => false
    | some p => p.order_id == orderId && p.status == "captured"

/-! ## subscription.js POST /verify-payment -/

/-- The response bodies of subscription.js verify-payment. -/
inductive VerifyResp
  | badRequest
  | notFound
  | alreadyCompleted (transaction_id : String) (sub_info : SubscriptionInfo)
      (plan : Option Plan)
  | verificationFailed
  | activated (transaction_id : String) (sub_info : SubscriptionInfo)
      (plan : Option Plan) (method : String)
  | serverError
deriving DecidableEq, Repr

/-- `router.post('/verify-payment')` from `src/routes/subscription.js`
(lines 191-385).  All ledger/user writes of the handler happen inside one
Mongoose session transaction: branches that abort the session return the
original database.  `now` is the request's clock reading. -/
def subVerifyPayment (hmac : String → String → String) (secret : String) (gw : Gateway)
    (now : Int) (uid : Nat) (order_id payment_id signature plan_id : Option String)
    (db : DB) : Outcome VerifyResp :=
  if !jsTruthy order_id || !jsTruthy plan_id then ⟨db, VerifyResp.badRequest, 0⟩
  else
    match findTxn db.ledger (ledgerKey (jsStr order_id) uid) with
    | none => ⟨db, VerifyResp.notFound, 0⟩
    | some txn =>
      if txn.status = TxStatus.completed then
        -- idempotency guard: abort the session and return the existing state
        match lookupUser db.users uid with
        | none => ⟨db, VerifyResp.serverError, 0⟩
        | some u =>
          ⟨db, VerifyResp.alreadyCompleted txn.transaction_id (getSubscriptionInfo u now)
                (SUBSCRIPTION_PLANS (jsStr plan_id)), 0⟩
      else
        match subVerifyMethods hmac secret gw (jsStr order_id) payment_id signature with
        | none => ⟨db, VerifyResp.verificationFailed, 0⟩
        | some (method, finalPid) =>
          -- `calculateEndDate` throws on an unknown plan id: session aborted
          match subCalculateEndDate (jsStr plan_id) now with
          | none => ⟨db, VerifyResp.serverError, 0⟩
          | some endDate =>
            let sig2 : String :=
              if jsTruthy signature then jsStr signature else method ++ "_verified"
            let ledger2 :=
              updateFirst db.ledger (ledgerKey (jsStr order_id) uid)
                (completeEntry finalPid sig2)
            let subData := mkSubscription (jsStr plan_id) now endDate finalPid txn.amount
            match lookupUser db.users uid with
            | none => ⟨db, VerifyResp.serverError, 0⟩  -- findByIdAndUpdate null: throw, abort
            | some _ =>
              if hasActiveSubscription subData now then
                ⟨⟨ledger2, setUserSub db.users uid subData⟩,
                 VerifyResp.activated txn.transaction_id (getSubscriptionInfo subData now)
                   (SUBSCRIPTION_PLANS (jsStr plan_id)) method, 1⟩
              else
                -- post-activation check failed: throw, abort, no email
                ⟨db, VerifyResp.serverError, 0⟩

/-! ## business.js POST /verify-payment -/

/-- The response bodies of business.js verify-payment. -/
inductive BizVerifyResp
  | badRequest
  | notFound
  | alreadyCompleted (transaction_id : String) (sub_info : SubscriptionInfo)
  | verificationFailed
  | activated (transaction_id : String) (sub_info : SubscriptionInfo) (plan : Option Plan)
  | serverError
deriving DecidableEq, Repr

/-- `router.post('/verify-payment')` from `src/routes/business.js`
(lines 370-534).  Differences from the subscription.js variant: the payment id
is mandatory, a failed verification marks the entry `failed` and commits, the
end date is computed from the ledger entry's `plan_id` with end-of-day
normalization, and there is no post-activation check. -/
def bizVerifyPayment (hmac : String → String → String) (secret : String) (gw : Gateway)
    (now : Int) (uid : Nat) (order_id payment_id signature : Option String)
    (db : DB) : Outcome BizVerifyResp :=
  if !jsTruthy order_id || !jsTruthy payment_id then ⟨db, BizVerifyResp.badRequest, 0⟩
  else
    match findTxn db.ledger (ledgerKey (jsStr order_id) uid) with
    | none => ⟨db, BizVerifyResp.notFound, 0⟩
    | some txn =>
      if txn.status = TxStatus.completed then
        match lookupUser db.users uid with
        | none => ⟨db, BizVerifyResp.serverError, 0⟩
        | some u =>
          ⟨db, BizVerifyResp.alreadyCompleted txn.transaction_id (getSubscriptionInfo u now), 0⟩
      else if !bizVerifyMethods hmac secret gw (jsStr order_id) (jsStr payment_id) signature then
        -- mark failed and COMMIT the session before responding 400
        ⟨⟨updateFirst db.ledger (ledgerKey (jsStr order_id) uid) failEntry, db.users⟩,
         BizVerifyResp.verificationFailed, 0⟩
      else
        match bizCalculateEndDate txn.plan_id now with
        | none => ⟨db, BizVerifyResp.serverError, 0⟩  -- calculateEndDate throws, abort
        | some endDate =>
          let sig2 : String :=
            if jsTruthy signature then jsStr signature else "verified_via_api"
          let ledger2 :=
            updateFirst db.ledger (ledgerKey (jsStr order_id) uid)
              (completeEntry (jsStr payment_id) sig2)
          let subData := mkSubscription txn.plan_id now endDate (jsStr payment_id) txn.amount
          match lookupUser db.users uid with
          | none => ⟨db, BizVerifyResp.serverError, 0⟩
          | some _ =>
            ⟨⟨ledger2, setUserSub db.users uid subData⟩,
             BizVerifyResp.activated txn.transaction_id (getSubscriptionInfo subData now)
               (SUBSCRIPTION_PLANS txn.plan_id), 1⟩

/-! ## Webhooks -/

/-- `payload.payment.entity` of a webhook delivery.  `order_id` is optional:
the payment.failed branch tests its truthiness before acting. -/
structure WebhookEntity where
  id : String
  order_id : Option String
  status : String
deriving DecidableEq, Repr

/-- The webhook response bodies; `webhookStatus` maps them to HTTP codes. -/
inductive WebhookResp
  | invalidSignature
  | ignored
  | transactionNotFound
  | alreadyCompleted
  | completedOk
  | paymentFailedProcessed
  | serverError
deriving DecidableEq, Repr

/-- HTTP status code of each webhook response. -/
def webhookStatus : WebhookResp → Int
  | WebhookResp.invalidSignature => 400
  | WebhookResp.serverError => 500
  | _ => 200

/-- The signature gate of subscription.js webhook (lines 392-410): the check
runs only when BOTH a secret is configured and a signature header is present;
it rejects when the HMAC of the raw body mismatches the header. -/
def badSigCheck (hmac : String → String → String) (wsec sigHeader : Option String)
    (raw : String) : Bool :=
  jsTruthy wsec && jsTruthy sigHeader && !(hmac (jsStr wsec) raw == jsStr sigHeader)

/-- `router.post('/webhook')` from `src/routes/subscription.js`
(lines 390-500).  `raw` is `JSON.stringify(req.body)`; `event` and `entity` are
the parsed body.  No Mongoose session is used: `transaction.save()` persists
immediately, before the end-date computation (which throws on an unknown plan
id) and before the user update (which is a no-op for a missing user). -/
def subWebhook (hmac : String → String → String) (wsec sigHeader : Option String)
    (raw : String) (event : Option String) (entity : Option WebhookEntity)
    (now : Int) (db : DB) : Outcome WebhookResp :=
  if badSigCheck hmac wsec sigHeader raw then ⟨db, WebhookResp.invalidSignature, 0⟩
  else if event == some "payment.captured" then
    match entity with
    | none => ⟨db, WebhookResp.ignored, 0⟩
    | some payment =>
      match findTxn db.ledger (webhookKey payment.order_id) with
      | none => ⟨db, WebhookResp.transactionNotFound, 0⟩
      | some txn =>
        if txn.status = TxStatus.completed then ⟨db, WebhookResp.alreadyCompleted, 0⟩
        else
          let ledger2 :=
            updateFirst db.ledger (webhookKey payment.order_id)
              (completeEntry payment.id "webhook_verified")
          match subCalculateEndDate txn.plan_id now with
          | none =>
            -- calculateEndDate throws AFTER the unsessioned save persisted
            ⟨⟨ledger2, db.users⟩, WebhookResp.serverError, 0⟩
          | some endDate =>
            let subData := mkSubscription txn.plan_id now endDate payment.id txn.amount
            ⟨⟨ledger2, setUserSub db.users txn.user_id subData⟩, WebhookResp.completedOk, 0⟩
  else if event == some "payment.failed" then
    match entity with
    | none => ⟨db, WebhookResp.paymentFailedProcessed, 0⟩
    | some payment =>
      if jsTruthy payment.order_id then
        -- updateOne with no status filter: the first matching entry is marked
        -- failed whatever its current status
        ⟨⟨updateFirst db.ledger (orderKey (jsStr payment.order_id)) failEntry, db.users⟩,
         WebhookResp.paymentFailedProcessed, 0⟩
      else ⟨db, WebhookResp.paymentFailedProcessed, 0⟩
  else ⟨db, WebhookResp.ignored, 0⟩

/-- The webhook secret hardcoded in `src/routes/business.js`. -/
def BIZ_WEBHOOK_SECRET : String := "@cuJ28rdcS*\x7d>$C"

/-- `router.post('/webhook')` from `src/routes/business.js` (lines 692-...).
The secret is a non-empty hardcoded literal, so the signature check always
runs; a missing header never equals the computed hex digest, hence `jsStr`.
In the payment.captured branch the function `calculateSubscriptionEndDate` is
not defined in that file (nor imported), so after the unsessioned
`txn.save()` the call throws a ReferenceError and the handler answers 500
with the ledger entry already marked completed. -/
def bizWebhook (hmac : String → String → String) (sigHeader : Option String)
    (raw : String) (event : Option String) (entity : Option WebhookEntity)
    (db : DB) : Outcome WebhookResp :=
  if !(hmac BIZ_WEBHOOK_SECRET raw == jsStr sigHeader) then
    ⟨db, WebhookResp.invalidSignature, 0⟩
  else if event == some "payment.captured" then
    match entity with
    | none => ⟨db, WebhookResp.ignored, 0⟩
    | some payment =>
      match findTxn db.ledger (webhookKey payment.order_id) with
      | none => ⟨db, WebhookResp.transactionNotFound, 0⟩
      | some txn =>
        if txn.status = TxStatus.completed then ⟨db, WebhookResp.alreadyCompleted, 0⟩
        else
          ⟨⟨updateFirst db.ledger (webhookKey payment.order_id)
              (completeEntry payment.id "webhook_verified"), db.users⟩,
           WebhookResp.serverError, 0⟩
  else if event == some "payment.failed" then
    match entity with
    | none => ⟨db, WebhookResp.paymentFailedProcessed, 0⟩
    | some payment =>
      if jsTruthy payment.order_id then
        ⟨⟨updateFirst db.ledger (orderKey (jsStr payment.order_id)) failEntry, db.users⟩,
         WebhookResp.paymentFailedProcessed, 0⟩
      else ⟨db, WebhookResp.paymentFailedProcessed, 0⟩
  else ⟨db, WebhookResp.ignored, 0⟩

/-! ## Order creation -/

/-- The response bodies of the create-order endpoints. -/
inductive CreateOrderResp
  | badRequest
  | alreadyActive (current : SubscriptionInfo)
  | created (order_id : String) (amount : Int) (transaction_id : String) (plan : Option Plan)
  | serverError
deriving DecidableEq, Repr

/-- The pending ledger entry persisted by order creation. -/
def newPendingEntry (newTxnId : String) (uid : Nat) (planId orderId : String)
    (price : Int) : LedgerEntry :=
  { transaction_id := newTxnId, user_id := uid, plan_id := planId,
    razorpay_order_id := orderId, razorpay_payment_id := none,
    razorpay_signature := none, amount := price, status := TxStatus.pending }

/-- `router.post('/create-order')` from `src/routes/subscription.js`
(lines 105-186).  `newTxnId` is the generated `TXN_...` token.  Note: this
variant performs NO active-subscription check. -/
def subCreateOrder (gw : Gateway) (uid : Nat) (newTxnId : String)
    (plan_id : Option String) (db : DB) : Outcome CreateOrderResp :=
  if !jsTruthy plan_id then ⟨db, CreateOrderResp.badRequest, 0⟩
  else
    match SUBSCRIPTION_PLANS (jsStr plan_id) with
    | none => ⟨db, CreateOrderResp.badRequest, 0⟩
    | some plan =>
      match gw.createOrder with
      | none => ⟨db, CreateOrderResp.serverError, 0⟩
      | some oid =>
        ⟨⟨db.ledger ++ [newPendingEntry newTxnId uid (jsStr plan_id) oid plan.price], db.users⟩,
         CreateOrderResp.created oid plan.price newTxnId (some plan), 0⟩

/-- `router.post('/create-order')` from `src/routes/business.js`
(lines 293-365).  `reqUserSub` is the authenticated user's subscription
subdocument, loaded live by the auth middleware for this request; `now` is the
request's clock reading used by `hasActiveSubscription`. -/
def bizCreateOrder (gw : Gateway) (uid : Nat) (newTxnId : String) (now : Int)
    (reqUserSub : Subscription) (plan_type : Option String) (db : DB) :
    Outcome CreateOrderResp :=
  if !jsTruthy plan_type then ⟨db, CreateOrderResp.badRequest, 0⟩
  else
    match SUBSCRIPTION_PLANS (jsStr plan_type) with
    | none => ⟨db, CreateOrderResp.badRequest, 0⟩
    | some plan =>
      if hasActiveSubscription reqUserSub now then
        ⟨db, CreateOrderResp.alreadyActive (getSubscriptionInfo reqUserSub now), 0⟩
      else
        match gw.createOrder with
        | none => ⟨db, CreateOrderResp.serverError, 0⟩
        | some oid =>
          ⟨⟨db.ledger ++ [newPendingEntry newTxnId uid (jsStr plan_type) oid plan.price], db.users⟩,
           CreateOrderResp.created oid plan.price newTxnId (some plan), 0⟩

/-! ## Helper lemmas -/

/-- Updating the first match of a filter, with an update that does not change
whether entries match, relocates `find?`: the found document is the updated
one. -/
theorem find?_updateFirst (l : List LedgerEntry) (p : LedgerEntry → Bool)
    (f : LedgerEntry → LedgerEntry) (hf : ∀ e, p (f e) = p e) :
    (updateFirst l p f).find? p = (l.find? p).map f := by
  induction l with
  | nil => rfl
  | cons e es ih =>
    by_cases he : p e
    · simp [updateFirst, he, List.find?_cons_of_pos, hf]
    · simp only [updateFirst, he, if_false, Bool.false_eq_true]
      rw [List.find?_cons_of_neg _ (by simp [he]), List.find?_cons_of_neg _ (by simp [he]), ih]

/-- Updating the first match leaves the set of users untouched and, when no
entry matches, the ledger untouched. -/
theorem updateFirst_of_find?_eq_none (l : List LedgerEntry) (p : LedgerEntry → Bool)
    (f : LedgerEntry → LedgerEntry) (h : l.find? p = none) : updateFirst l p f = l := by
  induction l with
  | nil => rfl
  | cons e es ih =>
    rw [List.find?_cons] at h
    by_cases he : p e
    · simp [he] at h
    · simp only [he, Bool.false_eq_true, if_false] at h ⊢
      rw [updateFirst, if_neg (by simp [he]), ih h]

/-- `completeEntry` changes neither the order id nor the user id. -/
theorem ledgerKey_completeEntry (o : String) (uid : Nat) (fpid sig : String)
    (e : LedgerEntry) : ledgerKey o uid (completeEntry fpid sig e) = ledgerKey o uid e := rfl

/-- `failEntry` changes neither the order id nor the user id. -/
theorem ledgerKey_failEntry (o : String) (uid : Nat) (e : LedgerEntry) :
    ledgerKey o uid (failEntry e) = ledgerKey o uid e := rfl

/-- Overwriting a user's subscription slot: the written value is read back when
the user exists; a missing user stays missing. -/
theorem lookupUser_setUserSub (us : List (Nat × Subscription)) (uid : Nat)
    (s : Subscription) :
    lookupUser (setUserSub us uid s) uid = (lookupUser us uid).map (fun _ => s) := by
  induction us with
  | nil => rfl
  | cons p ps ih =>
    by_cases hp : p.1 = uid
    · simp [setUserSub, hp, lookupUser, List.find?_cons_of_pos]
    · rw [setUserSub, if_neg hp]
      simp only [lookupUser, List.find?] at ih ⊢
      have : (p.1 == uid) = false := by simp [hp]
      rw [this]
      simpa [lookupUser] using ih

/-! ## Claim C10 -/

/-- Claim C10: the derived read `hasActiveSubscription` returns `false`
whenever the subscription record has no `end_date`, regardless of the stored
status; otherwise it returns `true` exactly when the stored status is
`active` and the `end_date` is strictly later than the current time. -/
theorem C10_hasActiveSubscription (s : Subscription) (now : Int) :
    (s.end_date = none → hasActiveSubscription s now = false) ∧
    (∀ e, s.end_date = some e →
      (hasActiveSubscription s now = true ↔ s.status = some SubStatus.active ∧ now < e)) := by
  constructor
  · intro h
    simp [hasActiveSubscription, h]
  · intro e h
    simp [hasActiveSubscription, h]

/-- Witness for C10: a record with status stored as `active` but no `end_date`
is not active; one with a future `end_date` and status `active` is. -/
theorem C10_hasActiveSubscription_witness :
    hasActiveSubscription
      { plan_type := some "basic", status := some SubStatus.active } 5 = false ∧
    hasActiveSubscription
      { plan_type := some "basic", status := some SubStatus.active,
        end_date := some 10 } 5 = true := by
  constructor
  · exact (C10_hasActiveSubscription _ 5).1 rfl
  · exact ((C10_hasActiveSubscription _ 5).2 10 rfl).mpr ⟨rfl, by decide⟩

/-! ## Claim C5 -/

/-- 2024-01-15T10:00:00.000Z in epoch milliseconds. -/
def jan15at10 : Int := 1705312800000

/-- 2024-02-14T10:00:00.000Z in epoch milliseconds. -/
def feb14at10 : Int := 1707904800000

/-- 2024-02-15T23:59:59.999Z in epoch milliseconds. -/
def feb15end : Int := 1708041599999

/-- Claim C5: the end-date computation of `src/routes/subscription.js` does
NOT advance the plan's `duration_months` calendar months with end-of-day
normalization.  At the spec's own example (plan with `duration_months = 1`,
activation 2024-01-15T10:00:00Z) it returns 2024-02-14T10:00:00Z — the plan
catalog defines no `validity_type`, so every plan falls into the default
"+30 days" branch with no normalization.  The `calculateEndDate` of
`src/routes/business.js` does return the specified 2024-02-15T23:59:59.999Z. -/
theorem C5_endDate_code_bug :
    subCalculateEndDate "basic" jan15at10 = some feb14at10 ∧
    feb14at10 ≠ feb15end ∧
    bizCalculateEndDate "basic" jan15at10 = some feb15end := by
  refine ⟨by decide, by decide, by decide⟩

/-! ## Claim C4 -/

/-- Claim C4: when the signature method is not satisfied (no signature supplied,
or the HMAC mismatches), verification succeeds if and only if the gateway
reports a payment for the order with matching `order_id` and status
`captured`.  For the subscription.js fallback the match on `order_id` is by
construction of the query (`fetchPayments(orderId)` only returns the order's
payments, hypothesis `hwf`); for the business.js fallback it is checked
explicitly on the payment fetched by id. -/
theorem C4_fallback_verification (hmac : String → String → String) (secret : String)
    (gw : Gateway) (o : String) (pid sig : Option String)
    (hwf : ∀ ps, gw.orderPayments o = some ps → ∀ q ∈ ps, q.order_id = o)
    (hsub : subSigMethod hmac secret o pid sig = false)
    (hbiz : bizSigMethod hmac secret o (jsStr pid) sig = false) :
    ((subVerifyMethods hmac secret gw o pid sig).isSome = true ↔
      ∃ ps, gw.orderPayments o = some ps ∧
        ∃ q ∈ ps, q.order_id = o ∧ q.status = "captured") ∧
    (bizVerifyMethods hmac secret gw o (jsStr pid) sig = true ↔
      ∃ q, gw.fetchPayment (jsStr pid) = some q ∧ q.order_id = o ∧ q.status = "captured") := by
  constructor
  · rw [subVerifyMethods, if_neg (by simp [hsub])]
    cases hops : gw.orderPayments o with
    | none => simp
    | some ps =>
      simp only [Option.some.injEq]
      constructor
      · intro h
        cases hfind : ps.find? (fun p => p.status == "captured") with
        | none =>
          rw [hfind] at h
          simp at h
        | some p =>
          have hmem := List.mem_of_find?_eq_some hfind
          refine ⟨ps, rfl, p, hmem, hwf ps hops p hmem, ?_⟩
          have hp := List.find?_some hfind
          simpa using hp
      · rintro ⟨ps2, hps2, q, hq, _, hqc⟩
        subst hps2
        cases hfind : ps.find? (fun p => p.status == "captured") with
        | none =>
          exfalso
          have := List.find?_eq_none.mp hfind q hq
          simp [hqc] at this
        | some p => simp
  · rw [bizVerifyMethods, if_neg (by simp [hbiz])]
    cases hfp : gw.fetchPayment (jsStr pid) with
    | none => simp
    | some p => simp

/-- A concrete gateway that reports one captured payment `pay_1` for every
order, both when listing an order's payments and when fetching by id. -/
def gwCaptured : Gateway :=
  ⟨fun o => some [⟨"pay_1", o, "captured"⟩], fun p => some ⟨p, "order_1", "captured"⟩,
   some "order_1"⟩

/-- A degenerate HMAC model used for concrete instances. -/
def hW : String → String → String := fun _ _ => "HX"

/-- Witness for C4: with no signature supplied and the gateway reporting a
captured payment for the order, both fallbacks succeed. -/
theorem C4_fallback_verification_witness :
    (subVerifyMethods hW "secret" gwCaptured "order_1" none none).isSome = true ∧
    bizVerifyMethods hW "secret" gwCaptured "order_1" (jsStr (some "pay_1")) none = true := by
  have h := C4_fallback_verification hW "secret" gwCaptured "order_1" (some "pay_1") none
    (by
      intro ps hps q hq
      simp only [gwCaptured, Option.some.injEq] at hps
      subst hps
      simp only [List.mem_singleton] at hq
      subst hq
      rfl)
    (by decide) (by decide)
  constructor
  · have h2 := C4_fallback_verification hW "secret" gwCaptured "order_1" none none
      (by
        intro ps hps q hq
        simp only [gwCaptured, Option.some.injEq] at hps
        subst hps
        simp only [List.mem_singleton] at hq
        subst hq
        rfl)
      (by decide) (by decide)
    exact h2.1.mpr ⟨[⟨"pay_1", "order_1", "captured"⟩], rfl, ⟨"pay_1", "order_1", "captured"⟩,
      by simp, rfl, rfl⟩
  · exact h.2.mpr ⟨⟨"pay_1", "order_1", "captured"⟩, rfl, rfl, rfl⟩

/-! ## Claim C3 -/

/-- Claim C3: when neither verification method succeeds for a pending ledger
entry, both verify-payment variants report a verification failure, never mark
the entry `completed`, and neither create nor alter any SubscriptionState.
The subscription.js variant aborts its session, leaving the entry `pending`
(retryable); the business.js variant commits a `failed` status. -/
theorem C3_failed_verification (hmac : String → String → String) (secret : String)
    (gw : Gateway) (now : Int) (uid : Nat) (o p s p2 s2 pl : Option String) (db : DB)
    (txn : LedgerEntry)
    (ho : jsTruthy o = true) (hpl : jsTruthy pl = true) (hp2 : jsTruthy p2 = true)
    (hfind : findTxn db.ledger (ledgerKey (jsStr o) uid) = some txn)
    (hpend : txn.status = TxStatus.pending)
    (hv : subVerifyMethods hmac secret gw (jsStr o) p s = none)
    (hvB : bizVerifyMethods hmac secret gw (jsStr o) (jsStr p2) s2 = false) :
    subVerifyPayment hmac secret gw now uid o p s pl db =
      ⟨db, VerifyResp.verificationFailed, 0⟩ ∧
    bizVerifyPayment hmac secret gw now uid o p2 s2 db =
      ⟨⟨updateFirst db.ledger (ledgerKey (jsStr o) uid) failEntry, db.users⟩,
       BizVerifyResp.verificationFailed, 0⟩ ∧
    (findTxn (updateFirst db.ledger (ledgerKey (jsStr o) uid) failEntry)
        (ledgerKey (jsStr o) uid)).map LedgerEntry.status = some TxStatus.failed := by
  refine ⟨?_, ?_, ?_⟩
  · simp [subVerifyPayment, ho, hpl, hfind, hpend, hv]
  · simp [bizVerifyPayment, ho, hp2, hfind, hpend, hvB]
  · rw [findTxn, find?_updateFirst _ _ _ (fun e => ledgerKey_failEntry _ _ e)]
    rw [findTxn] at hfind
    rw [hfind]
    rfl

/-- A pending ledger entry for order `order_2` of user 9. -/
def entPend : LedgerEntry :=
  { transaction_id := "TXN_2", user_id := 9, plan_id := "basic",
    razorpay_order_id := "order_2", razorpay_payment_id := none,
    razorpay_signature := none, amount := 100, status := TxStatus.pending }

/-- A database holding only the pending entry (the user document of user 9
does not exist). -/
def dbPend : DB := ⟨[entPend], []⟩

/-- A gateway that lists no payments for any order and throws on payment
fetches, so both fallbacks fail. -/
def gwNothing : Gateway := ⟨fun _ => some [], fun _ => none, none⟩

/-- Witness for C3 at a concrete pending entry with no captured payment. -/
theorem C3_failed_verification_witness :
    subVerifyPayment hW "secret" gwNothing 0 9 (some "order_2") none none (some "basic") dbPend =
      ⟨dbPend, VerifyResp.verificationFailed, 0⟩ :=
  (C3_failed_verification hW "secret" gwNothing 0 9 (some "order_2") none none
    (some "pay_x") none (some "basic") dbPend entPend (by decide) (by decide) (by decide)
    (by decide) rfl (by decide) (by decide)).1

/-! ## Claim C1 -/

/-- A live subscription slot of user 7 (status `active`, far-future end date). -/
def subActive7 : Subscription :=
  { plan_type := some "basic", start_date := some 0, end_date := some 99999999999999,
    status := some SubStatus.active, razorpay_subscription_id := some "pay_1",
    amount_paid := some 1 }

/-- A completed ledger entry for order `order_1` of user 7. -/
def entDone : LedgerEntry :=
  { transaction_id := "TXN_1", user_id := 7, plan_id := "basic",
    razorpay_order_id := "order_1", razorpay_payment_id := some "pay_1",
    razorpay_signature := some "sig1", amount := 100, status := TxStatus.completed }

/-- A database with the completed entry and user 7's active subscription. -/
def dbDone : DB := ⟨[entDone], [(7, subActive7)]⟩

/-- Counterexample to claim C1: a `payment.captured` webhook for an order whose
ledger entry is already `completed` answers only the constant acknowledgement
body `\x7b status: 'already_completed' \x7d` (subscription.js line 437) — it
does NOT return the user's existing SubscriptionState, which the claim asserts
for every verification trigger.  (The `WebhookResp` constructors mirror the
handler's literal response bodies; none carries a subscription payload.) -/
theorem C1_counterexample :
    subWebhook hW none none "" (some "payment.captured")
      (some ⟨"pay_1", some "order_1", "captured"⟩) 0 dbDone =
      ⟨dbDone, WebhookResp.alreadyCompleted, 0⟩ := by decide

/-- Claim C1 as amended: for a verification trigger whose resolved ledger entry
is already `completed`, the client verify-payment call returns success carrying
the user's existing SubscriptionState, and the webhook returns a bare success
acknowledgement; neither re-verifies, writes the ledger or the subscription, or
sends a notification, and repeating either call returns the identical result. -/
theorem C1_idempotency_amended (hmac : String → String → String) (secret : String)
    (gw : Gateway) (now : Int) (uid : Nat) (o p s pl wsec sigH : Option String)
    (raw : String) (ent : Option WebhookEntity) (db : DB) (txn : LedgerEntry)
    (u : Subscription) (pe : WebhookEntity) (txn2 : LedgerEntry)
    (ho : jsTruthy o = true) (hpl : jsTruthy pl = true)
    (hfind : findTxn db.ledger (ledgerKey (jsStr o) uid) = some txn)
    (hdone : txn.status = TxStatus.completed)
    (hu : lookupUser db.users uid = some u)
    (hsig : badSigCheck hmac wsec sigH raw = false)
    (hent : ent = some pe)
    (hfind2 : findTxn db.ledger (webhookKey pe.order_id) = some txn2)
    (hdone2 : txn2.status = TxStatus.completed) :
    subVerifyPayment hmac secret gw now uid o p s pl db =
      ⟨db, VerifyResp.alreadyCompleted txn.transaction_id (getSubscriptionInfo u now)
            (SUBSCRIPTION_PLANS (jsStr pl)), 0⟩ ∧
    subWebhook hmac wsec sigH raw (some "payment.captured") ent now db =
      ⟨db, WebhookResp.alreadyCompleted, 0⟩ ∧
    subVerifyPayment hmac secret gw now uid o p s pl
        (subVerifyPayment hmac secret gw now uid o p s pl db).db =
      subVerifyPayment hmac secret gw now uid o p s pl db ∧
    subWebhook hmac wsec sigH raw (some "payment.captured") ent now
        (subWebhook hmac wsec sigH raw (some "payment.captured") ent now db).db =
      subWebhook hmac wsec sigH raw (some "payment.captured") ent now db := by
  have h1 : subVerifyPayment hmac secret gw now uid o p s pl db =
      ⟨db, VerifyResp.alreadyCompleted txn.transaction_id (getSubscriptionInfo u now)
            (SUBSCRIPTION_PLANS (jsStr pl)), 0⟩ := by
    simp [subVerifyPayment, ho, hpl, hfind, hdone, hu]
  have h2 : subWebhook hmac wsec sigH raw (some "payment.captured") ent now db =
      ⟨db, WebhookResp.alreadyCompleted, 0⟩ := by
    simp [subWebhook, hsig, hent, hfind2, hdone2]
  refine ⟨h1, h2, ?_, ?_⟩
  · rw [h1]
    exact h1
  · rw [h2]
    exact h2

/-- Witness for the amended C1, at the concrete completed entry of `dbDone`. -/
theorem C1_idempotency_amended_witness :
    subVerifyPayment hW "secret" gwNothing 0 7 (some "order_1") none none (some "basic")
        dbDone =
      ⟨dbDone, VerifyResp.alreadyCompleted "TXN_1" (getSubscriptionInfo subActive7 0)
            (SUBSCRIPTION_PLANS "basic"), 0⟩ :=
  (C1_idempotency_amended hW "secret" gwNothing 0 7 (some "order_1") none none
    (some "basic") none none "" (some ⟨"pay_1", some "order_1", "captured"⟩) dbDone
    entDone subActive7 ⟨"pay_1", some "order_1", "captured"⟩ entDone
    (by decide) (by decide) (by decide) rfl (by decide) (by decide) rfl (by decide) rfl).1

/-! ## Claim C2 -/

/-- Counterexample to claim C2: the webhook path performs its two writes with
no transaction.  On a database holding a pending ledger entry for user 9 but no
user document 9 (`dbPend`), a `payment.captured` webhook marks the entry
`completed` and the user update is a silent no-op — a ledger entry marked
`completed` with no corresponding subscription, which the claim says is
structurally impossible. -/
theorem C2_counterexample :
    subWebhook hW none none "" (some "payment.captured")
        (some ⟨"pay_9", some "order_2", "captured"⟩) 0 dbPend =
      ⟨⟨[completeEntry "pay_9" "webhook_verified" entPend], []⟩,
       WebhookResp.completedOk, 0⟩ ∧
    (completeEntry "pay_9" "webhook_verified" entPend).status = TxStatus.completed ∧
    lookupUser [] 9 = none := by decide

/-- Claim C2 as amended: only the client verify-payment path of subscription.js
is transactional — every run either leaves the database unchanged or commits
both writes together, with the resolved entry `completed` and the user's
subscription overwritten and active.  (The webhook path has no such guarantee,
per the counterexample.) -/
theorem C2_atomicity_amended (hmac : String → String → String) (secret : String)
    (gw : Gateway) (now : Int) (uid : Nat) (o p s pl : Option String) (db : DB) :
    (subVerifyPayment hmac secret gw now uid o p s pl db).db = db ∨
    (∃ txn s2, findTxn db.ledger (ledgerKey (jsStr o) uid) = some txn ∧
      (findTxn (subVerifyPayment hmac secret gw now uid o p s pl db).db.ledger
          (ledgerKey (jsStr o) uid)).map LedgerEntry.status = some TxStatus.completed ∧
      lookupUser (subVerifyPayment hmac secret gw now uid o p s pl db).db.users uid = some s2 ∧
      hasActiveSubscription s2 now = true) := by
  by_cases h0 : (!jsTruthy o || !jsTruthy pl) = true
  · left
    simp [subVerifyPayment, h0]
  · cases hf : findTxn db.ledger (ledgerKey (jsStr o) uid) with
    | none =>
      left
      simp [subVerifyPayment, h0, hf]
    | some txn =>
      by_cases hc : txn.status = TxStatus.completed
      · cases hu : lookupUser db.users uid with
        | none =>
          left
          simp [subVerifyPayment, h0, hf, hc, hu]
        | some u =>
          left
          simp [subVerifyPayment, h0, hf, hc, hu]
      · cases hv : subVerifyMethods hmac secret gw (jsStr o) p s with
        | none =>
          left
          simp [subVerifyPayment, h0, hf, hc, hv]
        | some mv =>
          obtain ⟨method, fpid⟩ := mv
          cases hd : subCalculateEndDate (jsStr pl) now with
          | none =>
            left
            simp [subVerifyPayment, h0, hf, hc, hv, hd]
          | some endD =>
            cases hu : lookupUser db.users uid with
            | none =>
              left
              simp [subVerifyPayment, h0, hf, hc, hv, hd, hu]
            | some w =>
              by_cases ha :
                  hasActiveSubscription (mkSubscription (jsStr pl) now endD fpid txn.amount)
                    now = true
              · right
                have hrun : subVerifyPayment hmac secret gw now uid o p s pl db =
                    ⟨⟨updateFirst db.ledger (ledgerKey (jsStr o) uid)
                        (completeEntry fpid
                          (if jsTruthy s then jsStr s else method ++ "_verified")),
                      setUserSub db.users uid
                        (mkSubscription (jsStr pl) now endD fpid txn.amount)⟩,
                     VerifyResp.activated txn.transaction_id
                       (getSubscriptionInfo
                         (mkSubscription (jsStr pl) now endD fpid txn.amount) now)
                       (SUBSCRIPTION_PLANS (jsStr pl)) method, 1⟩ := by
                  simp [subVerifyPayment, h0, hf, hc, hv, hd, hu, ha]
                refine ⟨txn, mkSubscription (jsStr pl) now endD fpid txn.amount, rfl, ?_, ?_, ha⟩
                · rw [hrun]
                  rw [findTxn, find?_updateFirst _ _ _
                    (fun e => ledgerKey_completeEntry _ _ _ _ e)]
                  rw [findTxn] at hf
                  rw [hf]
                  rfl
                · rw [hrun]
                  rw [lookupUser_setUserSub, hu]
                  rfl
              · left
                simp [subVerifyPayment, h0, hf, hc, hv, hd, hu, ha]

/-! ## Claim C6 -/

/-- A gateway whose only successful operation is creating order `order_9`. -/
def gwOrder9 : Gateway := ⟨fun _ => none, fun _ => none, some "order_9"⟩

/-- A database in which user 7 holds a live (active, unexpired) subscription
and the ledger is empty. -/
def dbActive7 : DB := ⟨[], [(7, subActive7)]⟩

/-- Counterexample to claim C6: the subscription.js create-order endpoint
performs no active-subscription check.  At time 0 user 7's live SubscriptionState
is active, yet order creation succeeds and persists a new pending ledger entry
instead of rejecting with Conflict. -/
theorem C6_counterexample :
    hasActiveSubscription subActive7 0 = true ∧
    subCreateOrder gwOrder9 7 "TXN_9" (some "basic") dbActive7 =
      ⟨⟨[newPendingEntry "TXN_9" 7 "basic" "order_9" 100], [(7, subActive7)]⟩,
       CreateOrderResp.created "order_9" 100 "TXN_9" (SUBSCRIPTION_PLANS "basic"), 0⟩ := by
  refine ⟨by decide, by decide⟩

/-- Claim C6 as amended: the business.js create-order endpoint rejects a user
whose live-recomputed SubscriptionState is active (HTTP 400, no new ledger
entry) and persists a new `pending` entry otherwise; the subscription.js
variant persists a new `pending` entry for any existing plan with no
active-subscription check at all. -/
theorem C6_create_order_amended (gw : Gateway) (uid : Nat) (newTxnId : String) (now : Int)
    (reqUserSub : Subscription) (pt : Option String) (db : DB) (plan : Plan)
    (hpt : jsTruthy pt = true)
    (hplan : SUBSCRIPTION_PLANS (jsStr pt) = some plan) :
    (hasActiveSubscription reqUserSub now = true →
      bizCreateOrder gw uid newTxnId now reqUserSub pt db =
        ⟨db, CreateOrderResp.alreadyActive (getSubscriptionInfo reqUserSub now), 0⟩) ∧
    (∀ oid, hasActiveSubscription reqUserSub now = false → gw.createOrder = some oid →
      bizCreateOrder gw uid newTxnId now reqUserSub pt db =
        ⟨⟨db.ledger ++ [newPendingEntry newTxnId uid (jsStr pt) oid plan.price], db.users⟩,
         CreateOrderResp.created oid plan.price newTxnId (some plan), 0⟩) ∧
    (∀ oid, gw.createOrder = some oid →
      subCreateOrder gw uid newTxnId pt db =
        ⟨⟨db.ledger ++ [newPendingEntry newTxnId uid (jsStr pt) oid plan.price], db.users⟩,
         CreateOrderResp.created oid plan.price newTxnId (some plan), 0⟩) := by
  refine ⟨?_, ?_, ?_⟩
  · intro hact
    simp [bizCreateOrder, hpt, hplan, hact]
  · intro oid hact hco
    simp [bizCreateOrder, hpt, hplan, hact, hco]
  · intro oid hco
    simp [subCreateOrder, hpt, hplan, hco]

/-- Witness for the amended C6: user 7's active subscription blocks the
business.js order creation. -/
theorem C6_create_order_amended_witness :
    bizCreateOrder gwOrder9 7 "TXN_9" 0 subActive7 (some "basic") dbActive7 =
      ⟨dbActive7, CreateOrderResp.alreadyActive (getSubscriptionInfo subActive7 0), 0⟩ :=
  (C6_create_order_amended gwOrder9 7 "TXN_9" 0 subActive7 (some "basic") dbActive7
    { name := "Basic Plan", price := 100, duration_months := 1,
      features := ["Up to 50 invoices per month", "Basic invoice templates",
                   "Customer management", "Payment tracking", "Email support"] }
    (by decide) (by decide)).1 (by decide)

/-! ## Claim C7 -/

/-- `failEntry` does not change the order id. -/
theorem orderKey_failEntry (o : String) (e : LedgerEntry) :
    orderKey o (failEntry e) = orderKey o e := rfl

/-- Counterexample to claim C7: a `payment.failed` webhook uses an
unconditional `updateOne` with no status filter, so it flips the already
`completed` entry of `dbDone` to `failed` — a completed ledger entry is not
immutable, and failed-marking is not restricted to `pending` entries. -/
theorem C7_counterexample :
    entDone.status = TxStatus.completed ∧
    subWebhook hW none none "" (some "payment.failed")
        (some ⟨"pay_1", some "order_1", "failed"⟩) 0 dbDone =
      ⟨⟨[failEntry entDone], [(7, subActive7)]⟩, WebhookResp.paymentFailedProcessed, 0⟩ ∧
    (failEntry entDone).status = TxStatus.failed := by
  refine ⟨by decide, by decide, by decide⟩

/-- Claim C7 as amended: a `payment.failed` webhook (either router variant)
marks the first ledger entry matching the order `failed` regardless of its
current status — including `completed` — and never creates or modifies any
SubscriptionState; a `completed` entry IS left untouched by the other
triggers (`payment.captured` webhooks and the client verify-payment call,
which return early). -/
theorem C7_completed_entries_amended (hmac : String → String → String) (secret : String)
    (gw : Gateway) (now : Int) (uid : Nat) (wsec sigH : Option String) (raw : String)
    (pe : WebhookEntity) (db : DB) :
    (badSigCheck hmac wsec sigH raw = false → jsTruthy pe.order_id = true →
      subWebhook hmac wsec sigH raw (some "payment.failed") (some pe) now db =
        ⟨⟨updateFirst db.ledger (orderKey (jsStr pe.order_id)) failEntry, db.users⟩,
         WebhookResp.paymentFailedProcessed, 0⟩) ∧
    ((hmac BIZ_WEBHOOK_SECRET raw == jsStr sigH) = true → jsTruthy pe.order_id = true →
      bizWebhook hmac sigH raw (some "payment.failed") (some pe) db =
        ⟨⟨updateFirst db.ledger (orderKey (jsStr pe.order_id)) failEntry, db.users⟩,
         WebhookResp.paymentFailedProcessed, 0⟩) ∧
    (∀ txn, findTxn db.ledger (orderKey (jsStr pe.order_id)) = some txn →
      (findTxn (updateFirst db.ledger (orderKey (jsStr pe.order_id)) failEntry)
          (orderKey (jsStr pe.order_id))).map LedgerEntry.status = some TxStatus.failed) ∧
    (∀ txn, badSigCheck hmac wsec sigH raw = false →
      findTxn db.ledger (webhookKey pe.order_id) = some txn →
      txn.status = TxStatus.completed →
      subWebhook hmac wsec sigH raw (some "payment.captured") (some pe) now db =
        ⟨db, WebhookResp.alreadyCompleted, 0⟩) ∧
    (∀ txn u (o p s pl : Option String), jsTruthy o = true → jsTruthy pl = true →
      findTxn db.ledger (ledgerKey (jsStr o) uid) = some txn →
      txn.status = TxStatus.completed → lookupUser db.users uid = some u →
      (subVerifyPayment hmac secret gw now uid o p s pl db).db = db) := by
  refine ⟨?_, ?_, ?_, ?_, ?_⟩
  · intro hsig hord
    simp [subWebhook, hsig, hord]
  · intro hsig hord
    simp [bizWebhook, hsig, hord]
  · intro txn hfind
    rw [findTxn, find?_updateFirst _ _ _ (fun e => orderKey_failEntry _ e)]
    rw [findTxn] at hfind
    rw [hfind]
    rfl
  · intro txn hsig hfind hdone
    simp [subWebhook, hsig, hfind, hdone]
  · intro txn u o p s pl ho hpl hfind hdone hu
    simp [subVerifyPayment, ho, hpl, hfind, hdone, hu]

/-- Witness for the amended C7: the failed-event webhook on `dbDone` flips the
completed entry to `failed` while leaving the user's subscription alone. -/
theorem C7_completed_entries_amended_witness :
    subWebhook hW none none "" (some "payment.failed")
        (some ⟨"pay_1", some "order_1", "failed"⟩) 0 dbDone =
      ⟨⟨updateFirst dbDone.ledger (orderKey (jsStr (some "order_1"))) failEntry,
        dbDone.users⟩, WebhookResp.paymentFailedProcessed, 0⟩ :=
  (C7_completed_entries_amended hW "secret" gwNothing 0 7 none none ""
    ⟨"pay_1", some "order_1", "failed"⟩ dbDone).1 (by decide) (by decide)

/-! ## Claim C8 -/

/-- The subscription.js end-date computation throws exactly on unknown plan
ids. -/
theorem subCalculateEndDate_eq_none_iff (pid : String) (t : Int) :
    subCalculateEndDate pid t = none ↔ SUBSCRIPTION_PLANS pid = none := by
  cases h : SUBSCRIPTION_PLANS pid with
  | none => simp [subCalculateEndDate, h]
  | some plan => simp [subCalculateEndDate, h]

/-- Claim C8: once the webhook signature check passes (or is skipped because no
secret or no header is present), every business-logic no-op — missing payment
entity, unknown order, already-completed entry, unrecognized event — is
acknowledged with HTTP 200; a non-200 answer arises only from a bad signature
(400) or from the one processing exception (500: a pending entry whose
`plan_id` is not in the catalog makes `calculateEndDate` throw). -/
theorem C8_webhook_acknowledgement (hmac : String → String → String)
    (wsec sigH : Option String) (raw : String) (event : Option String)
    (ent : Option WebhookEntity) (now : Int) (db : DB) :
    (badSigCheck hmac wsec sigH raw = true →
      subWebhook hmac wsec sigH raw event ent now db =
        ⟨db, WebhookResp.invalidSignature, 0⟩) ∧
    (badSigCheck hmac wsec sigH raw = false → event = some "payment.captured" →
      ent = none →
      subWebhook hmac wsec sigH raw event ent now db = ⟨db, WebhookResp.ignored, 0⟩) ∧
    (∀ pe, badSigCheck hmac wsec sigH raw = false → event = some "payment.captured" →
      ent = some pe → findTxn db.ledger (webhookKey pe.order_id) = none →
      subWebhook hmac wsec sigH raw event ent now db =
        ⟨db, WebhookResp.transactionNotFound, 0⟩) ∧
    (∀ pe txn, badSigCheck hmac wsec sigH raw = false → event = some "payment.captured" →
      ent = some pe → findTxn db.ledger (webhookKey pe.order_id) = some txn →
      txn.status = TxStatus.completed →
      subWebhook hmac wsec sigH raw event ent now db =
        ⟨db, WebhookResp.alreadyCompleted, 0⟩) ∧
    (badSigCheck hmac wsec sigH raw = false → event ≠ some "payment.captured" →
      event ≠ some "payment.failed" →
      subWebhook hmac wsec sigH raw event ent now db = ⟨db, WebhookResp.ignored, 0⟩) ∧
    (webhookStatus (subWebhook hmac wsec sigH raw event ent now db).resp ≠ 200 →
      badSigCheck hmac wsec sigH raw = true ∨
      (∃ pe txn, event = some "payment.captured" ∧ ent = some pe ∧
        findTxn db.ledger (webhookKey pe.order_id) = some txn ∧
        txn.status ≠ TxStatus.completed ∧ SUBSCRIPTION_PLANS txn.plan_id = none)) := by
  refine ⟨?_, ?_, ?_, ?_, ?_, ?_⟩
  · intro hb
    simp [subWebhook, hb]
  · intro hb he hent
    subst he
    simp [subWebhook, hb, hent]
  · intro pe hb he hent hf
    subst he
    simp [subWebhook, hb, hent, hf]
  · intro pe txn hb he hent hf hc
    subst he
    simp [subWebhook, hb, hent, hf, hc]
  · intro hb he he2
    simp [subWebhook, hb, he, he2]
  · intro hne
    by_cases hb : badSigCheck hmac wsec sigH raw = true
    · exact Or.inl hb
    · replace hb : badSigCheck hmac wsec sigH raw = false := by
        simpa using hb
      right
      by_cases he : event = some "payment.captured"
      · subst he
        cases ent with
        | none => simp [subWebhook, hb, webhookStatus] at hne
        | some pe =>
          cases hf : findTxn db.ledger (webhookKey pe.order_id) with
          | none => simp [subWebhook, hb, hf, webhookStatus] at hne
          | some txn =>
            by_cases hc : txn.status = TxStatus.completed
            · simp [subWebhook, hb, hf, hc, webhookStatus] at hne
            · cases hd : subCalculateEndDate txn.plan_id now with
              | none =>
                exact ⟨pe, txn, rfl, rfl, hf, hc,
                  (subCalculateEndDate_eq_none_iff _ _).mp hd⟩
              | some e => simp [subWebhook, hb, hf, hc, hd, webhookStatus] at hne
      · by_cases he2 : event = some "payment.failed"
        · subst he2
          cases ent with
          | none => simp [subWebhook, hb, webhookStatus] at hne
          | some pe =>
            by_cases hord : jsTruthy pe.order_id = true
            · simp [subWebhook, hb, hord, webhookStatus] at hne
            · simp [subWebhook, hb, hord, webhookStatus] at hne
        · simp [subWebhook, hb, he, he2, webhookStatus] at hne

/-- Witness for C8: a captured event naming an order with no ledger entry is
acknowledged with the 200 body `transaction_not_found`. -/
theorem C8_webhook_acknowledgement_witness :
    subWebhook hW none none "" (some "payment.captured")
        (some ⟨"pay_z", some "order_zz", "captured"⟩) 0 dbPend =
      ⟨dbPend, WebhookResp.transactionNotFound, 0⟩ :=
  ((C8_webhook_acknowledgement hW none none "" (some "payment.captured")
      (some ⟨"pay_z", some "order_zz", "captured"⟩) 0 dbPend).2.2.1)
    ⟨"pay_z", some "order_zz", "captured"⟩ (by decide) rfl rfl (by decide)

end Invoiz
